import Mathlib

/-
Shallow embedding of gslib/commands/ls.py (gsutil `ls` command).

The file models the three components of the command:
  * the bucket summarizer       (`_PrintBucketInfo`)
  * the per-object detail printer (`_PrintInfoAboutBucketListingRef`)
  * the listing-reference expander (`_ExpandUriAndPrintInfo` and
    `_BuildBlrExpansionForUriOnlyBlr`), plus the command entry point
    (`RunCommand`).

External collaborators (the wildcard matching service, boto storage
accessors, URI classification, the human-readable byte formatter) are
packaged in an `Env` of abstract functions.  Output is modelled as a list
of printed strings (one entry per Python `print` statement); fallible
calls return `Except`.  The traversal loop of `_ExpandUriAndPrintInfo`
is driven by fuel; `CmdErr.outOfFuel` marks fuel exhaustion and never
corresponds to a behaviour of the source.
-/

/-- Characters are compared byte-wise; strings are manipulated through
their character lists so that every definition evaluates by kernel
reduction. -/
def strTake (s : String) (n : Nat) : String :=
  String.mk (s.data.take n)

/-- Model of Python `str.endswith`. -/
def strEndsWith (s t : String) : Bool :=
  t.data.isSuffixOf s.data

/-- Modelled from the spec: `BucketListingRef.GetRStrippedUriString`
(gslib/bucket_listing_ref.py, not under src/) trims "any trailing path
separator", i.e. Python `rstrip('/')`: all trailing slashes removed. -/
def rstripSlashes (s : String) : String :=
  String.mk ((s.data.reverse.dropWhile fun c => c == '/').reverse)

/-- Modelled from the spec: `gslib.wildcard_iterator.ContainsWildcard`
(not under src/) tests for a wildcard character in the URI string. -/
def ContainsWildcard (s : String) : Bool :=
  s.data.any fun c => c == '*' || c == '?' || c == '[' || c == ']'

/-- Python `'%10s' % x` style right alignment: pad with spaces on the
left up to `width`; longer strings are kept whole. -/
def padLeft (width : Nat) (s : String) : String :=
  String.mk (List.replicate (width - s.data.length) ' ') ++ s

/-- The single-quote character (written by code point to keep the
source free of quote-escape noise). -/
def squote : Char := Char.ofNat 39

/-- Python `s.strip('"\x27')`: remove double and single quotes from
both ends (used on the etag). -/
def stripQuotes (s : String) : String :=
  String.mk
    (((s.data.dropWhile fun c => c == '"' || c == squote).reverse.dropWhile
        fun c => c == '"' || c == squote).reverse)

/-- `gslib.util.ListingStyle`: the three detail levels of `ls`. -/
inductive ListingStyle where
  | SHORT
  | LONG
  | LONG_LONG
deriving DecidableEq, Repr

/-- `boto.exception.GSResponseError`, reduced to its HTTP status. -/
structure GSErr where
  status : Nat
deriving DecidableEq, Repr

/-- Errors that can escape the command: `gslib.exception.CommandException`,
a propagated `GSResponseError`, or exhaustion of the modelling fuel. -/
inductive CmdErr where
  | commandException (msg : String)
  | gsResponseError (status : Nat)
  | outOfFuel
deriving DecidableEq, Repr

/-- The metadata of a storage object (boto `Key`), as used by ls.py. -/
structure Key where
  bucket : String
  name : String
  size : Nat
  last_modified : String
  content_type : String
  cache_control : Option String
  content_disposition : Option String
  content_encoding : Option String
  content_language : Option String
  metadata : List (String × String)
  etag : String
deriving DecidableEq, Repr

/-- Modelled from the spec: `gslib.bucket_listing_ref.BucketListingRef`
(not under src/).  A traversal node: a URI string, an optional resolved
key payload (`HasKey`), and a subdirectory-prefix tag (`HasPrefix`,
field `pfx`).  A reference with neither tag either names a bucket
exactly or is unresolved user input. -/
structure BucketListingRef where
  uriString : String
  key : Option Key
  pfx : Bool
deriving DecidableEq, Repr

/-- Modelled from the spec: `GetRStrippedUriString` on a reference. -/
def BucketListingRef.GetRStrippedUriString (blr : BucketListingRef) : String :=
  rstripSlashes blr.uriString

/-- The external collaborators of ls.py, as abstract functions:
the wildcard matching service (`WildcardIterator` and its `IterKeys` /
`IterUris` views), the boto storage accessors (`get_key`, `get_acl`,
`get_def_acl`, `get_location`), the byte formatter `MakeHumanReadable`,
and the boto URI classifiers (`names_provider`, `names_bucket`,
`scheme`). -/
structure Env where
  wildcardIterator : String → List BucketListingRef
  IterKeys : String → List Key
  IterUris : String → List String
  get_key : String → Except GSErr Key
  get_acl : String → Except GSErr String
  get_def_acl : String → Except GSErr String
  get_location : String → Except GSErr String
  MakeHumanReadable : Nat → String
  namesProvider : String → Bool
  namesBucket : String → Bool
  scheme : String → String

/-- A computation that prints lines and either yields a value or stops
with an error; output printed before the error stays on the stream. -/
abbrev LsResult (α : Type) := List String × Except CmdErr α

/-- `LsCommand._UriStrForObj`: `'%s://%s/%s' % (uri.scheme,
obj.bucket.name, obj.name)`. -/
def UriStrForObj (scheme : String) (obj : Key) : String :=
  scheme ++ "://" ++ obj.bucket ++ "/" ++ obj.name

/-- One optional detail line: printed only when the field is present
(Python truthiness on the attribute). -/
def optLine (label : String) : Option String → List String
  | none => []
  | some v => ["\t" ++ label ++ ":\t" ++ v]

/-- The detail lines printed by the LONG_LONG branch between the header
and the ACL line, in source order (ls.py lines 306-320). -/
def detailLines (obj : Key) : List String :=
  ["\tObject size:\t" ++ toString obj.size,
   "\tLast mod:\t" ++ obj.last_modified]
  ++ optLine "Cache control" obj.cache_control
  ++ ["\tMIME type:\t" ++ obj.content_type]
  ++ optLine "Content-Disposition" obj.content_disposition
  ++ optLine "Content-Encoding" obj.content_encoding
  ++ optLine "Content-Language" obj.content_language
  ++ (obj.metadata.map fun p => "\tMetadata:\t" ++ p.1 ++ " = " ++ p.2)
  ++ ["\tEtag:\t" ++ stripQuotes obj.etag]

/-- The fixed message printed when reading an ACL is denied
(ls.py lines 326-327; one `print` of a two-line string). -/
def accessDeniedMsg : String :=
  "\tACCESS DENIED for reading ACL. Note: you need FULL_CONTROL permission on each\n\tobject in order to read its ACL."

/-- `LsCommand._PrintInfoAboutBucketListingRef` (ls.py lines 271-332),
for a reference that carries a resolved key `obj`.  The LONG_LONG
branch mirrors the try/except: everything from the header print through
the ACL print runs under a handler that swallows `GSResponseError`
with status 403 (returning `(1, size)` with the size bound to the local
`obj` at the point of failure) and re-raises any other status. -/
def PrintInfoAboutBucketListingRef (env : Env) (scheme : String) (obj : Key)
    (style : ListingStyle) : LsResult (Nat × Nat) :=
  match style with
  | ListingStyle.SHORT =>
    ([UriStrForObj scheme obj], Except.ok (1, 0))
  | ListingStyle.LONG =>
    ([padLeft 10 (toString obj.size) ++ "  " ++ strTake obj.last_modified 19
        ++ "  " ++ UriStrForObj scheme obj],
     Except.ok (1, obj.size))
  | ListingStyle.LONG_LONG =>
    let us := UriStrForObj scheme obj
    match env.get_key us with
    | Except.error e =>
      if e.status = 403 then
        ([us ++ ":", accessDeniedMsg], Except.ok (1, obj.size))
      else
        ([us ++ ":"], Except.error (CmdErr.gsResponseError e.status))
    | Except.ok obj2 =>
      match env.get_acl us with
      | Except.error e =>
        if e.status = 403 then
          ([us ++ ":"] ++ detailLines obj2 ++ [accessDeniedMsg],
           Except.ok (1, obj2.size))
        else
          ([us ++ ":"] ++ detailLines obj2,
           Except.error (CmdErr.gsResponseError e.status))
      | Except.ok acl =>
        ([us ++ ":"] ++ detailLines obj2 ++ ["\tACL:\t" ++ acl],
         Except.ok (1, obj2.size))

/-- boto `bucket_uri.clone_replace_name(name)`: the bucket URI with the
object name replaced. -/
def cloneReplaceName (bucketUri name : String) : String :=
  rstripSlashes bucketUri ++ "/" ++ name

/-- `LsCommand._PrintBucketInfo` (ls.py lines 220-254).  The first
component records the patterns sent to the matching service (the object
enumeration), so that "no enumeration" is observable; then output lines
and the `(objects, bytes)` result. -/
def PrintBucketInfo (env : Env) (bucketUri : String) (style : ListingStyle) :
    List String × LsResult (Nat × Nat) :=
  if style = ListingStyle.SHORT then
    ([], [bucketUri], Except.ok (0, 0))
  else
    let pat := cloneReplaceName bucketUri "**"
    let keys := env.IterKeys pat
    let objs := keys.length
    let bs := (keys.map Key.size).sum
    if style = ListingStyle.LONG then
      ([pat],
       [bucketUri ++ " : " ++ toString objs ++ " objects, "
          ++ env.MakeHumanReadable bs],
       Except.ok (objs, bs))
    else
      match env.get_location bucketUri with
      | Except.error e => ([pat], [], Except.error (CmdErr.gsResponseError e.status))
      | Except.ok loc =>
        match env.get_acl bucketUri with
        | Except.error e => ([pat], [], Except.error (CmdErr.gsResponseError e.status))
        | Except.ok acl =>
          match env.get_def_acl bucketUri with
          | Except.error e => ([pat], [], Except.error (CmdErr.gsResponseError e.status))
          | Except.ok dacl =>
            let locOut := if loc = "" then "" else "\n\tLocationConstraint: " ++ loc
            ([pat],
             [bucketUri ++ " :\n\t" ++ toString objs ++ " objects, "
                ++ env.MakeHumanReadable bs ++ locOut
                ++ "\n\tACL: " ++ acl ++ "\n\tDefault ACL: " ++ dacl],
             Except.ok (objs, bs))

/-- Summarize a list of buckets with `PrintBucketInfo`, accumulating
totals (the provider and `-b` loops of `RunCommand`). -/
def printBucketInfoList (env : Env) (style : ListingStyle) :
    List String → LsResult (Nat × Nat)
  | [] => ([], Except.ok (0, 0))
  | b :: rest =>
    match (PrintBucketInfo env b style).2 with
    | (o, Except.error e) => (o, Except.error e)
    | (o, Except.ok (n1, b1)) =>
      match printBucketInfoList env style rest with
      | (o2, Except.error e) => (o ++ o2, Except.error e)
      | (o2, Except.ok (n2, b2)) => (o ++ o2, Except.ok (n1 + n2, b1 + b2))

/-- `LsCommand._BuildBlrExpansionForUriOnlyBlr` (ls.py lines 334-366):
ambiguous-root resolution of an unresolved user-supplied reference. -/
def BuildBlrExpansionForUriOnlyBlr (env : Env) (blr : BucketListingRef) :
    List BucketListingRef :=
  let rstripped := blr.GetRStrippedUriString
  if ContainsWildcard rstripped then
    env.wildcardIterator rstripped
  else
    (env.wildcardIterator (rstripped ++ "*")).filter
      fun cur => cur.GetRStrippedUriString == rstripped

/-- The condition guarding the subdirectory header print in ls.py line
401: `num_expanded_blrs > 1 or should_recurse`. -/
def printSubdirHeader (numExpandedBlrs : Nat) (shouldRecurse : Bool) : Bool :=
  decide (1 < numExpandedBlrs) || shouldRecurse

/-- The double-slash rewrite of ls.py lines 430-435: a subdirectory
reference whose (raw) URI string ends in `//` is replaced, before being
enqueued, by an unresolved reference for `<uri>*`. -/
def rewriteDoubleSlash (cur : BucketListingRef) : BucketListingRef :=
  if strEndsWith cur.uriString "//" then
    { uriString := cur.uriString ++ "*", key := none, pfx := false }
  else cur

/-- The loop state of `_ExpandUriAndPrintInfo`: the FIFO work queue,
the running totals, the top-level flag, the blank-separator flag, and
the cumulative count of references produced by unresolved-reference
expansions. -/
structure ExpState where
  blrsToExpand : List BucketListingRef
  numObjs : Nat
  numBytes : Nat
  expandingTopLevel : Bool
  printedOne : Bool
  numExpandedBlrs : Nat

/-- The inner `for cur_blr in blr_expansion` loop of
`_ExpandUriAndPrintInfo` (ls.py lines 416-444).  Returns the printed
lines, the `(objects, bytes)` contribution, whether an object was
printed, and the references enqueued for future passes, in order. -/
def processChildren (env : Env) (uri : String) (style : ListingStyle)
    (shouldRecurse topLevel : Bool) :
    List BucketListingRef → LsResult (Nat × Nat × Bool × List BucketListingRef)
  | [] => ([], Except.ok (0, 0, false, []))
  | cur :: rest =>
    match cur.key with
    | some obj =>
      match PrintInfoAboutBucketListingRef env (env.scheme uri) obj style with
      | (o, Except.error e) => (o, Except.error e)
      | (o, Except.ok (no, nb)) =>
        match processChildren env uri style shouldRecurse topLevel rest with
        | (o2, Except.error e) => (o ++ o2, Except.error e)
        | (o2, Except.ok (n2, b2, _p2, q2)) =>
          (o ++ o2, Except.ok (no + n2, nb + b2, true, q2))
    | none =>
      if (topLevel && !(env.namesBucket uri)) || shouldRecurse then
        match processChildren env uri style shouldRecurse topLevel rest with
        | (o2, Except.error e) => (o2, Except.error e)
        | (o2, Except.ok (n2, b2, p2, q2)) =>
          (o2, Except.ok (n2, b2, p2, rewriteDoubleSlash cur :: q2))
      else
        let line := if style = ListingStyle.LONG
          then String.mk (List.replicate 33 ' ') ++ cur.uriString
          else cur.uriString
        match processChildren env uri style shouldRecurse topLevel rest with
        | (o2, r) => (line :: o2, r)

/-- Shared tail of one iteration of the outer while loop: process the
children of the popped reference and rebuild the loop state
(ls.py lines 416-445; `expanding_top_level` is cleared every pass). -/
def finishStep (env : Env) (uri : String) (style : ListingStyle)
    (shouldRecurse : Bool) (rest : List BucketListingRef) (s : ExpState)
    (preOut : List String) (printedPre : Bool) (numExp : Nat)
    (expansion : List BucketListingRef) : LsResult ExpState :=
  match processChildren env uri style shouldRecurse s.expandingTopLevel expansion with
  | (o, Except.error e) => (preOut ++ o, Except.error e)
  | (o, Except.ok (dObjs, dBytes, pAny, enq)) =>
    (preOut ++ o,
     Except.ok { blrsToExpand := rest ++ enq,
                 numObjs := s.numObjs + dObjs,
                 numBytes := s.numBytes + dBytes,
                 expandingTopLevel := false,
                 printedOne := printedPre || pAny,
                 numExpandedBlrs := numExp })

/-- One iteration of the outer while loop of `_ExpandUriAndPrintInfo`
(ls.py lines 391-445): blank separator, pop, resolve the popped
reference into its expansion (key / prefix / bucket / unresolved, with
the no-such-object check), then process the children. -/
def expandStep (env : Env) (uri : String) (style : ListingStyle)
    (shouldRecurse : Bool) (s : ExpState) : LsResult ExpState :=
  match s.blrsToExpand with
  | [] => ([], Except.ok s)
  | blr :: rest =>
    let blankOut : List String := if s.printedOne then [""] else []
    match blr.key with
    | some _ =>
      finishStep env uri style shouldRecurse rest s blankOut s.printedOne
        s.numExpandedBlrs [blr]
    | none =>
      if blr.pfx then
        finishStep env uri style shouldRecurse rest s
          (blankOut ++ (if printSubdirHeader s.numExpandedBlrs shouldRecurse
                        then [blr.uriString ++ ":"] else []))
          (s.printedOne || printSubdirHeader s.numExpandedBlrs shouldRecurse)
          s.numExpandedBlrs
          (env.wildcardIterator (blr.GetRStrippedUriString ++ "/*"))
      else if env.namesBucket blr.uriString then
        finishStep env uri style shouldRecurse rest s blankOut s.printedOne
          s.numExpandedBlrs
          (env.wildcardIterator (blr.uriString ++ "*"))
      else
        let expansion := BuildBlrExpansionForUriOnlyBlr env blr
        let numExp := s.numExpandedBlrs + expansion.length
        if (numExp == 0) && !(ContainsWildcard uri) then
          (blankOut,
           Except.error (CmdErr.commandException ("No such object " ++ uri)))
        else
          finishStep env uri style shouldRecurse rest s blankOut s.printedOne
            numExp expansion

/-- The fuelled outer while loop: iterate `expandStep` until the queue
is empty, returning the accumulated `(objects, bytes)`. -/
def expandLoop (env : Env) (uri : String) (style : ListingStyle)
    (shouldRecurse : Bool) : Nat → ExpState → LsResult (Nat × Nat)
  | 0, s =>
    ([], if s.blrsToExpand.isEmpty then Except.ok (s.numObjs, s.numBytes)
         else Except.error CmdErr.outOfFuel)
  | fuel + 1, s =>
    match s.blrsToExpand with
    | [] => ([], Except.ok (s.numObjs, s.numBytes))
    | _ :: _ =>
      match expandStep env uri style shouldRecurse s with
      | (o, Except.error e) => (o, Except.error e)
      | (o, Except.ok s2) =>
        match expandLoop env uri style shouldRecurse fuel s2 with
        | (o2, r) => (o ++ o2, r)

/-- `LsCommand._ExpandUriAndPrintInfo` (ls.py lines 368-446): seed the
queue with `BucketListingRef(uri)` and run the loop. -/
def ExpandUriAndPrintInfo (env : Env) (uri : String) (style : ListingStyle)
    (shouldRecurse : Bool) (fuel : Nat) : LsResult (Nat × Nat) :=
  expandLoop env uri style shouldRecurse fuel
    { blrsToExpand := [{ uriString := uri, key := none, pfx := false }],
      numObjs := 0, numBytes := 0,
      expandingTopLevel := true, printedOne := false, numExpandedBlrs := 0 }

/-- The summary line of ls.py lines 513-514. -/
def totalLine (env : Env) (totalObjs totalBytes : Nat) : String :=
  "TOTAL: " ++ toString totalObjs ++ " objects, " ++ toString totalBytes
    ++ " bytes (" ++ env.MakeHumanReadable totalBytes ++ ")"

/-- Processing of one positional URI argument in `RunCommand`
(ls.py lines 473-510): provider listing, bucket listing (with or
without `-b`), or expansion.  The third result component is this URI's
contribution to `got_nomatch_errors`. -/
def processUriArg (env : Env) (style : ListingStyle)
    (getBucketInfo recursionRequested : Bool) (fuel : Nat) (uriStr : String) :
    LsResult (Nat × Nat × Bool) :=
  if env.namesProvider uriStr then
    match printBucketInfoList env style
        (env.IterUris (env.scheme uriStr ++ "://*")) with
    | (o, Except.error e) => (o, Except.error e)
    | (o, Except.ok (n, b)) => (o, Except.ok (n, b, false))
  else if env.namesBucket uriStr then
    if getBucketInfo then
      match printBucketInfoList env style (env.IterUris uriStr) with
      | (o, Except.error e) => (o, Except.error e)
      | (o, Except.ok (n, b)) => (o, Except.ok (n, b, false))
    else
      match ExpandUriAndPrintInfo env uriStr style recursionRequested fuel with
      | (o, Except.error e) => (o, Except.error e)
      | (o, Except.ok (n, b)) =>
        (o, Except.ok (n, b, (n == 0) && ContainsWildcard uriStr))
  else
    match ExpandUriAndPrintInfo env uriStr style recursionRequested fuel with
    | (o, Except.error e) => (o, Except.error e)
    | (o, Except.ok (n, b)) =>
      (o, Except.ok (n, b, (n == 0) && ContainsWildcard uriStr))

/-- The `for uri_str in self.args` loop of `RunCommand`, threading the
running totals and the `got_nomatch_errors` flag. -/
def runCommandLoop (env : Env) (style : ListingStyle)
    (getBucketInfo recursionRequested : Bool) (fuel : Nat) :
    List String → Nat × Nat × Bool → LsResult (Nat × Nat × Bool)
  | [], acc => ([], Except.ok acc)
  | u :: rest, (tObjs, tBytes, nm) =>
    match processUriArg env style getBucketInfo recursionRequested fuel u with
    | (o, Except.error e) => (o, Except.error e)
    | (o, Except.ok (n, b, f)) =>
      match runCommandLoop env style getBucketInfo recursionRequested fuel
          rest (tObjs + n, tBytes + b, nm || f) with
      | (o2, r) => (o ++ o2, r)

/-- `LsCommand.RunCommand` (ls.py lines 449-516), after flag parsing:
empty argument list defaults to `gs://`; after all URIs are processed
the TOTAL line is printed when the object total is nonzero and the
style is not SHORT, and then the aggregate no-match failure is raised
if any wildcard URI matched nothing. -/
def RunCommand (env : Env) (args : List String) (style : ListingStyle)
    (getBucketInfo recursionRequested : Bool) (fuel : Nat) : LsResult Unit :=
  let args2 := if args.isEmpty then ["gs://"] else args
  match runCommandLoop env style getBucketInfo recursionRequested fuel
      args2 (0, 0, false) with
  | (o, Except.error e) => (o, Except.error e)
  | (o, Except.ok (tObjs, tBytes, nm)) =>
    (o ++ (if tObjs ≠ 0 ∧ style ≠ ListingStyle.SHORT
           then [totalLine env tObjs tBytes] else []),
     if nm then Except.error (CmdErr.commandException "One or more URIs matched no objects.")
     else Except.ok ())

/-- A storage object with only the fields the concrete runs need. -/
def mkObj (bucket name : String) (size : Nat) (lm : String) : Key :=
  { bucket := bucket, name := name, size := size, last_modified := lm,
    content_type := "text/plain", cache_control := none,
    content_disposition := none, content_encoding := none,
    content_language := none, metadata := [], etag := "abc" }

/-- A base environment in which every service call yields nothing. -/
def baseEnv : Env where
  wildcardIterator := fun _ => []
  IterKeys := fun _ => []
  IterUris := fun _ => []
  get_key := fun _ => Except.error { status := 404 }
  get_acl := fun _ => Except.ok ""
  get_def_acl := fun _ => Except.ok ""
  get_location := fun _ => Except.ok ""
  MakeHumanReadable := fun _ => ""
  namesProvider := fun _ => false
  namesBucket := fun _ => false
  scheme := fun _ => "gs"

/-- The object `gs://b/o` as reported by a bucket listing. -/
def objListed : Key := mkObj "b" "o" 7 "2012-03-02T19:25:17.000Z"

/-- The same object as reported by the authoritative re-fetch
(different size, to make visible which size is returned). -/
def objRefetched : Key := mkObj "b" "o" 9 "2012-03-02T19:25:17.000Z"

/-- Environment where the re-fetch succeeds but the ACL read is
denied with HTTP 403. -/
def envAclDenied : Env :=
  { baseEnv with
    get_key := fun _ => Except.ok objRefetched,
    get_acl := fun _ => Except.error { status := 403 } }

/-- Environment where the authoritative re-fetch itself is denied
with HTTP 403. -/
def envKeyDenied : Env :=
  { baseEnv with get_key := fun _ => Except.error { status := 403 } }

/-- Environment where `gs://b/s*` matches one object and one
subdirectory. -/
def envOneObjOneSubdir : Env :=
  { baseEnv with
    wildcardIterator := fun pat =>
      if pat == "gs://b/s*" then
        [{ uriString := "gs://b/sob", key := some (mkObj "b" "sob" 3 "t"), pfx := false },
         { uriString := "gs://b/sub/", key := none, pfx := true }]
      else [] }

/-- The unresolved user-supplied reference for `gs://b/sub`. -/
def blrSub : BucketListingRef := { uriString := "gs://b/sub", key := none, pfx := false }

/-- Ambiguous-root resolution of `gs://b/sub` finds no exact match. -/
def envMatchZero : Env :=
  { baseEnv with
    wildcardIterator := fun pat =>
      if pat == "gs://b/sub*" then
        [{ uriString := "gs://b/subzero", key := some (mkObj "b" "subzero" 1 "t"), pfx := false }]
      else [] }

/-- Ambiguous-root resolution of `gs://b/sub` finds exactly the object. -/
def envMatchOne : Env :=
  { baseEnv with
    wildcardIterator := fun pat =>
      if pat == "gs://b/sub*" then
        [{ uriString := "gs://b/sub", key := some (mkObj "b" "sub" 2 "t"), pfx := false }]
      else [] }

/-- Ambiguous-root resolution of `gs://b/sub` finds both an object and
a subdirectory of that name (plus an unrelated prefix match that is
filtered out). -/
def envMatchTwo : Env :=
  { baseEnv with
    wildcardIterator := fun pat =>
      if pat == "gs://b/sub*" then
        [{ uriString := "gs://b/sub", key := some (mkObj "b" "sub" 2 "t"), pfx := false },
         { uriString := "gs://b/sub/", key := none, pfx := true },
         { uriString := "gs://b/subzero", key := some (mkObj "b" "subzero" 1 "t"), pfx := false }]
      else [] }

/-- Environment with a single five-byte object `gs://b/o`. -/
def envOneObj : Env :=
  { baseEnv with
    wildcardIterator := fun pat =>
      if pat == "gs://b/o*" then
        [{ uriString := "gs://b/o", key := some (mkObj "b" "o" 5 "2012-03-02T19:25:17.000Z"), pfx := false }]
      else [],
    MakeHumanReadable := fun _ => "5 B" }

/-- The loop state in which the pass after `gs://b/s*` pops the single
subdirectory `gs://b/sub/` (one object was already printed and the
user-URI expansion produced two references). -/
def stateOnePrefix : ExpState :=
  { blrsToExpand := [{ uriString := "gs://b/sub/", key := none, pfx := true }],
    numObjs := 1, numBytes := 3, expandingTopLevel := false,
    printedOne := true, numExpandedBlrs := 2 }

/-- Helper: a run of the argument loop whose accumulated
`got_nomatch_errors` flag is already `true` keeps it `true`. -/
theorem runCommandLoop_flag_stays (env : Env) (style : ListingStyle)
    (gbi recurse : Bool) (fuel : Nat) :
    ∀ (args : List String) (t0 b0 : Nat) (o : List String)
      (t b : Nat) (nm : Bool),
      runCommandLoop env style gbi recurse fuel args (t0, b0, true) =
        (o, Except.ok (t, b, nm)) → nm = true := by
  intro args
  induction args with
  | nil =>
    intro t0 b0 o t b nm h
    simp only [runCommandLoop, Prod.mk.injEq, Except.ok.injEq] at h
    exact h.2.2.2.symm
  | cons a rest ih =>
    intro t0 b0 o t b nm h
    simp only [runCommandLoop] at h
    cases hp : processUriArg env style gbi recurse fuel a with
    | mk o1 r1 =>
      rw [hp] at h
      cases r1 with
      | error e => simp at h
      | ok v =>
        obtain ⟨n1, b1, f1⟩ := v
        simp only [Bool.true_or] at h
        cases hl : runCommandLoop env style gbi recurse fuel rest
            (t0 + n1, b0 + b1, true) with
        | mk o2 r2 =>
          rw [hl] at h
          simp only [Prod.mk.injEq] at h
          exact ih (t0 + n1) (b0 + b1) o2 t b nm (by rw [hl, h.2])

/-- Helper: if some argument of the loop contributes a `true`
no-match flag and the whole loop completes, the final flag is `true`. -/
theorem runCommandLoop_mem_flag (env : Env) (style : ListingStyle)
    (gbi recurse : Bool) (fuel : Nat) (u : String)
    (ou : List String) (nou nbu : Nat)
    (hu : processUriArg env style gbi recurse fuel u =
      (ou, Except.ok (nou, nbu, true))) :
    ∀ (args : List String) (t0 b0 : Nat) (nm0 : Bool) (o : List String)
      (t b : Nat) (nm : Bool),
      u ∈ args →
      runCommandLoop env style gbi recurse fuel args (t0, b0, nm0) =
        (o, Except.ok (t, b, nm)) →
      nm = true := by
  intro args
  induction args with
  | nil => intro t0 b0 nm0 o t b nm hmem; cases hmem
  | cons a rest ih =>
    intro t0 b0 nm0 o t b nm hmem h
    simp only [runCommandLoop] at h
    rcases List.mem_cons.mp hmem with heq | hmem2
    · subst heq
      rw [hu] at h
      simp only [Bool.or_true] at h
      cases hl : runCommandLoop env style gbi recurse fuel rest
          (t0 + nou, b0 + nbu, true) with
      | mk o2 r2 =>
        rw [hl] at h
        simp only [Prod.mk.injEq] at h
        exact runCommandLoop_flag_stays env style gbi recurse fuel rest
          (t0 + nou) (b0 + nbu) o2 t b nm (by rw [hl, h.2])
    · cases hp : processUriArg env style gbi recurse fuel a with
      | mk o1 r1 =>
        rw [hp] at h
        cases r1 with
        | error e => simp at h
        | ok v =>
          obtain ⟨n1, b1, f1⟩ := v
          dsimp only at h
          cases hl : runCommandLoop env style gbi recurse fuel rest
              (t0 + n1, b0 + b1, nm0 || f1) with
          | mk o2 r2 =>
            rw [hl] at h
            simp only [Prod.mk.injEq] at h
            exact ih (t0 + n1) (b0 + b1) (nm0 || f1) o2 t b nm hmem2
              (by rw [hl, h.2])

/-- Claim C1: in the extended (LONG_LONG) detail printer, when the ACL
read fails with a `GSResponseError` of status 403, the error is caught,
the fixed access-denied message is printed in place of the ACL line,
and the printer still returns success as `(1, size)` with the size
already known from the re-fetched object; a `GSResponseError` of any
other status raised in that block (by the ACL read or by the re-fetch
itself) propagates as an error. -/
theorem printInfo_longlong_acl_403_recovery (env : Env) (scheme : String)
    (obj : Key) (e : GSErr) :
    (∀ obj2 : Key,
      env.get_key (UriStrForObj scheme obj) = Except.ok obj2 →
      env.get_acl (UriStrForObj scheme obj) = Except.error e →
      (e.status = 403 →
        PrintInfoAboutBucketListingRef env scheme obj ListingStyle.LONG_LONG =
          ([UriStrForObj scheme obj ++ ":"] ++ detailLines obj2 ++ [accessDeniedMsg],
           Except.ok (1, obj2.size))) ∧
      (e.status ≠ 403 →
        PrintInfoAboutBucketListingRef env scheme obj ListingStyle.LONG_LONG =
          ([UriStrForObj scheme obj ++ ":"] ++ detailLines obj2,
           Except.error (CmdErr.gsResponseError e.status)))) ∧
    (env.get_key (UriStrForObj scheme obj) = Except.error e → e.status ≠ 403 →
      PrintInfoAboutBucketListingRef env scheme obj ListingStyle.LONG_LONG =
        ([UriStrForObj scheme obj ++ ":"],
         Except.error (CmdErr.gsResponseError e.status))) := by
  constructor
  · intro obj2 hk hacl
    constructor
    · intro h403
      simp [PrintInfoAboutBucketListingRef, hk, hacl, h403]
    · intro hne
      simp [PrintInfoAboutBucketListingRef, hk, hacl, hne]
  · intro hk hne
    simp [PrintInfoAboutBucketListingRef, hk, hne]

/-- Witness for C1: with the re-fetch succeeding (size 9) and the ACL
read denied with 403, the printer emits the detail lines plus the
access-denied message and returns `(1, 9)`. -/
theorem printInfo_longlong_acl_403_recovery_witness :
    PrintInfoAboutBucketListingRef envAclDenied "gs" objListed ListingStyle.LONG_LONG =
      ([UriStrForObj "gs" objListed ++ ":"] ++ detailLines objRefetched ++ [accessDeniedMsg],
       Except.ok (1, objRefetched.size)) :=
  ((printInfo_longlong_acl_403_recovery envAclDenied "gs" objListed
      { status := 403 }).1 objRefetched rfl rfl).1 rfl

/-- Claim C10: in the extended (LONG_LONG) detail printer, a
`GSResponseError` with status 403 raised by the authoritative
re-fetch (`get_key`) itself — not only by the ACL read — is caught by
the same recovery path: the access-denied message is printed and the
printer returns `(1, size)` with the size known at the point of failure
(the size from the original listing, since the re-fetch assignment
never completed). -/
theorem printInfo_longlong_getkey_403_recovery (env : Env) (scheme : String)
    (obj : Key) (e : GSErr)
    (hk : env.get_key (UriStrForObj scheme obj) = Except.error e)
    (h403 : e.status = 403) :
    PrintInfoAboutBucketListingRef env scheme obj ListingStyle.LONG_LONG =
      ([UriStrForObj scheme obj ++ ":", accessDeniedMsg],
       Except.ok (1, obj.size)) := by
  simp [PrintInfoAboutBucketListingRef, hk, h403]

/-- Witness for C10: with the re-fetch denied with 403, the printer
prints the header and the message and returns the listed size 7. -/
theorem printInfo_longlong_getkey_403_recovery_witness :
    PrintInfoAboutBucketListingRef envKeyDenied "gs" objListed ListingStyle.LONG_LONG =
      ([UriStrForObj "gs" objListed ++ ":", accessDeniedMsg],
       Except.ok (1, objListed.size)) :=
  printInfo_longlong_getkey_403_recovery envKeyDenied "gs" objListed
    { status := 403 } rfl rfl

/-- Claim C9: the mid-level (LONG) detail printer prints one line with
the right-aligned (width 10) object size, the timestamp truncated to
its first 19 characters, and the fully qualified URI, and returns
`(1, size)`; instantiated on the spec's example object. -/
theorem printInfo_long_line_format :
    (∀ (env : Env) (scheme : String) (obj : Key),
      PrintInfoAboutBucketListingRef env scheme obj ListingStyle.LONG =
        ([padLeft 10 (toString obj.size) ++ "  " ++ strTake obj.last_modified 19
            ++ "  " ++ UriStrForObj scheme obj],
         Except.ok (1, obj.size))) ∧
    PrintInfoAboutBucketListingRef baseEnv "gs"
        (mkObj "bucket" "obj1" 2276224 "2012-03-02T19:25:17.000Z") ListingStyle.LONG =
      (["   2276224  2012-03-02T19:25:17  gs://bucket/obj1"],
       Except.ok (1, 2276224)) :=
  ⟨fun _ _ _ => rfl, rfl⟩

/-- Claim C8: the bucket summarizer at terse (SHORT) detail prints only
the bucket identifier, sends no pattern to the matching service (the
call-trace component is empty: no object enumeration), and returns
`(0, 0)`, contributing nothing to the running totals. -/
theorem printBucketInfo_short_no_enumeration (env : Env) (bucketUri : String) :
    PrintBucketInfo env bucketUri ListingStyle.SHORT =
      ([], [bucketUri], Except.ok (0, 0)) := by
  simp [PrintBucketInfo]

/-- Claim C2: when the expander pops an unresolved user-supplied
reference (the seed, which carries no key, no prefix tag, and does not
name a bucket) and ambiguous-root resolution produces zero references
while the original URI contains no wildcard, the expansion fails
immediately with a "No such object" error. -/
theorem expand_literal_nomatch_raises (env : Env) (uri : String)
    (style : ListingStyle) (recurse : Bool) (fuel : Nat)
    (hfuel : 1 ≤ fuel)
    (hnb : env.namesBucket uri = false)
    (hexp : BuildBlrExpansionForUriOnlyBlr env
      { uriString := uri, key := none, pfx := false } = [])
    (hw : ContainsWildcard uri = false) :
    ExpandUriAndPrintInfo env uri style recurse fuel =
      ([], Except.error (CmdErr.commandException ("No such object " ++ uri))) := by
  obtain ⟨f, rfl⟩ : ∃ f, fuel = f + 1 :=
    ⟨fuel - 1, (Nat.succ_pred_eq_of_pos hfuel).symm⟩
  simp [ExpandUriAndPrintInfo, expandLoop, expandStep, hnb, hexp, hw]

/-- Witness for C2: in an environment where the matching service finds
nothing, the literal URI `gs://b/o` aborts with "No such object". -/
theorem expand_literal_nomatch_raises_witness :
    ExpandUriAndPrintInfo baseEnv "gs://b/o" ListingStyle.SHORT false 1 =
      ([], Except.error (CmdErr.commandException ("No such object " ++ "gs://b/o"))) :=
  expand_literal_nomatch_raises baseEnv "gs://b/o" ListingStyle.SHORT false 1
    (Nat.le_refl 1) rfl rfl rfl

/-- Counterexample to claim C4 as stated: listing `gs://b/s*`
(no recursion) matches one object and exactly one subdirectory, so
"more than one subdirectory is being expanded in the current pass" is
false and recursion was not requested, yet the header line
`gs://b/sub/:` is printed — because the guard counts all references
produced by the user-URI expansion (`num_expanded_blrs = 2`), not
subdirectories. -/
theorem subdir_header_not_subdir_count :
    ((ExpandUriAndPrintInfo envOneObjOneSubdir "gs://b/s*"
        ListingStyle.SHORT false 2).1).contains "gs://b/sub/:" = true ∧
    (BuildBlrExpansionForUriOnlyBlr envOneObjOneSubdir
        { uriString := "gs://b/s*", key := none, pfx := false }).countP
      (fun b => b.pfx) = 1 := by
  constructor <;> rfl

/-- Claim C4 (amended): when the expander pops a known subdirectory
prefix, the header line `"<uri>:"` is printed if and only if the
cumulative count of references produced so far by expansions of
unresolved user-supplied references exceeds one, or recursion was
requested; the count includes objects as well as subdirectories. -/
theorem subdir_header_condition (env : Env) (uri : String)
    (style : ListingStyle) (recurse : Bool) (s : ExpState)
    (blr : BucketListingRef) (rest : List BucketListingRef)
    (hq : s.blrsToExpand = blr :: rest) (hk : blr.key = none)
    (hp : blr.pfx = true) :
    (expandStep env uri style recurse s).1 =
      ((if s.printedOne then [""] else []) ++
        (if printSubdirHeader s.numExpandedBlrs recurse
         then [blr.uriString ++ ":"] else [])) ++
      (processChildren env uri style recurse s.expandingTopLevel
        (env.wildcardIterator (blr.GetRStrippedUriString ++ "/*"))).1 ∧
    (printSubdirHeader s.numExpandedBlrs recurse = true ↔
      1 < s.numExpandedBlrs ∨ recurse = true) := by
  constructor
  · have hstep : expandStep env uri style recurse s =
        finishStep env uri style recurse rest s
          ((if s.printedOne then [""] else []) ++
            (if printSubdirHeader s.numExpandedBlrs recurse
             then [blr.uriString ++ ":"] else []))
          (s.printedOne || printSubdirHeader s.numExpandedBlrs recurse)
          s.numExpandedBlrs
          (env.wildcardIterator (blr.GetRStrippedUriString ++ "/*")) := by
      simp [expandStep, hq, hk, hp]
    rw [hstep]
    cases hpc : processChildren env uri style recurse s.expandingTopLevel
        (env.wildcardIterator (blr.GetRStrippedUriString ++ "/*")) with
    | mk o r =>
      cases r with
      | error e => simp [finishStep, hpc]
      | ok v =>
        obtain ⟨n2, b2, p2, q2⟩ := v
        simp [finishStep, hpc]
  · simp [printSubdirHeader]

/-- Witness for the amended C4: popping the single subdirectory
`gs://b/sub/` with `num_expanded_blrs = 2` and no recursion. -/
theorem subdir_header_condition_witness :
    (expandStep envOneObjOneSubdir "gs://b/s*" ListingStyle.SHORT false
        stateOnePrefix).1 =
      ((if stateOnePrefix.printedOne then [""] else []) ++
        (if printSubdirHeader stateOnePrefix.numExpandedBlrs false
         then ["gs://b/sub/" ++ ":"] else [])) ++
      (processChildren envOneObjOneSubdir "gs://b/s*" ListingStyle.SHORT false
        stateOnePrefix.expandingTopLevel
        (envOneObjOneSubdir.wildcardIterator
          (BucketListingRef.GetRStrippedUriString
            { uriString := "gs://b/sub/", key := none, pfx := true } ++ "/*"))).1 ∧
    (printSubdirHeader stateOnePrefix.numExpandedBlrs false = true ↔
      1 < stateOnePrefix.numExpandedBlrs ∨ false = true) :=
  subdir_header_condition envOneObjOneSubdir "gs://b/s*" ListingStyle.SHORT false
    stateOnePrefix { uriString := "gs://b/sub/", key := none, pfx := true } []
    rfl rfl rfl

/-- Counterexample to claim C5 as stated: the subdirectory reference
`gs://b//` (an object uploaded with a leading slash) has a trimmed URI
form `gs://b` that does not end in `//` — trimming removes all trailing
slashes, so no trimmed form ever ends in `//` — yet it is not enqueued
unchanged: the code rewrites it to the wildcard reference `gs://b//*`
because its raw URI string ends in `//`. -/
theorem doubleSlash_rewrite_raw_not_trimmed :
    strEndsWith (rstripSlashes "gs://b//") "//" = false ∧
    processChildren baseEnv "gs://b" ListingStyle.SHORT true true
        [{ uriString := "gs://b//", key := none, pfx := true }] =
      ([], Except.ok (0, 0, false,
        [{ uriString := "gs://b//*", key := none, pfx := false }])) := by
  constructor <;> rfl

/-- Claim C5 (amended): before a subdirectory reference is enqueued for
a future pass, it is rewritten into the unresolved wildcard reference
`<uri>*` exactly when its raw (untrimmed) URI string ends in `//`;
references whose raw URI string does not end in `//` are enqueued
unchanged. -/
theorem doubleSlash_rewrite_condition (env : Env) (uri : String)
    (style : ListingStyle) (recurse topLevel : Bool)
    (cur : BucketListingRef) (rest : List BucketListingRef)
    (hk : cur.key = none)
    (hcond : ((topLevel && !(env.namesBucket uri)) || recurse) = true) :
    (∀ (o2 : List String) (n2 b2 : Nat) (p2 : Bool) (q2 : List BucketListingRef),
      processChildren env uri style recurse topLevel rest =
        (o2, Except.ok (n2, b2, p2, q2)) →
      processChildren env uri style recurse topLevel (cur :: rest) =
        (o2, Except.ok (n2, b2, p2, rewriteDoubleSlash cur :: q2))) ∧
    (strEndsWith cur.uriString "//" = true →
      rewriteDoubleSlash cur =
        { uriString := cur.uriString ++ "*", key := none, pfx := false }) ∧
    (strEndsWith cur.uriString "//" = false → rewriteDoubleSlash cur = cur) := by
  refine ⟨?_, ?_, ?_⟩
  · intro o2 n2 b2 p2 q2 hrest
    simp [processChildren, hk, hcond, hrest]
  · intro h; simp [rewriteDoubleSlash, h]
  · intro h; simp [rewriteDoubleSlash, h]

/-- Witness for the amended C5: the double-slash subdirectory of an
empty bucket listing is enqueued in rewritten form. -/
theorem doubleSlash_rewrite_condition_witness :
    processChildren baseEnv "gs://b" ListingStyle.SHORT true true
        [{ uriString := "gs://b//", key := none, pfx := true }] =
      ([], Except.ok (0, 0, false,
        [rewriteDoubleSlash { uriString := "gs://b//", key := none, pfx := true }])) :=
  (doubleSlash_rewrite_condition baseEnv "gs://b" ListingStyle.SHORT true true
    { uriString := "gs://b//", key := none, pfx := true } [] rfl rfl).1
    [] 0 0 false [] rfl

/-- Claim C6: ambiguous-root resolution of an unresolved reference
whose trimmed URI contains no wildcard resolves `<trimmed>*` via the
matching service and keeps exactly the results whose trimmed URI equals
the original trimmed URI; and zero, one, and two results are all
possible (two when an object and a subdirectory share the name). -/
theorem buildBlrExpansion_exact_filter :
    (∀ (env : Env) (blr : BucketListingRef),
      ContainsWildcard blr.GetRStrippedUriString = false →
      BuildBlrExpansionForUriOnlyBlr env blr =
        (env.wildcardIterator (blr.GetRStrippedUriString ++ "*")).filter
          (fun cur => cur.GetRStrippedUriString == blr.GetRStrippedUriString)) ∧
    (BuildBlrExpansionForUriOnlyBlr envMatchZero blrSub).length = 0 ∧
    (BuildBlrExpansionForUriOnlyBlr envMatchOne blrSub).length = 1 ∧
    (BuildBlrExpansionForUriOnlyBlr envMatchTwo blrSub).length = 2 := by
  refine ⟨?_, rfl, rfl, rfl⟩
  intro env blr h
  simp [BuildBlrExpansionForUriOnlyBlr, h]

/-- Witness for C6: the filter characterization evaluated in the
environment where both an object and a subdirectory named
`gs://b/sub` exist. -/
theorem buildBlrExpansion_exact_filter_witness :
    BuildBlrExpansionForUriOnlyBlr envMatchTwo blrSub =
      (envMatchTwo.wildcardIterator (blrSub.GetRStrippedUriString ++ "*")).filter
        (fun cur => cur.GetRStrippedUriString == blrSub.GetRStrippedUriString) :=
  buildBlrExpansion_exact_filter.1 envMatchTwo blrSub rfl

/-- Claim C3: if some input URI (in normal, non-`-b` mode) contains a
wildcard and expands to zero objects, and the argument loop completes
for every input URI, then the recorded no-match flag is set and the
command raises the single aggregate failure only after all input URIs
have been processed and all output — including the TOTAL line when
applicable — has been printed; the other URIs' output is part of
`body`. -/
theorem runCommand_wildcard_nomatch_aggregate (env : Env)
    (style : ListingStyle) (recurse : Bool) (fuel : Nat)
    (args : List String) (u : String) (ou body : List String)
    (nbu tObjs tBytes : Nat) (nm : Bool)
    (hu : u ∈ args)
    (hprov : env.namesProvider u = false)
    (hbuck : env.namesBucket u = false)
    (hw : ContainsWildcard u = true)
    (hzero : ExpandUriAndPrintInfo env u style recurse fuel =
      (ou, Except.ok (0, nbu)))
    (hloop : runCommandLoop env style false recurse fuel args (0, 0, false) =
      (body, Except.ok (tObjs, tBytes, nm))) :
    nm = true ∧
    RunCommand env args style false recurse fuel =
      (body ++ (if tObjs ≠ 0 ∧ style ≠ ListingStyle.SHORT
                then [totalLine env tObjs tBytes] else []),
       Except.error (CmdErr.commandException "One or more URIs matched no objects.")) := by
  have hp : processUriArg env style false recurse fuel u =
      (ou, Except.ok (0, nbu, true)) := by
    simp [processUriArg, hprov, hbuck, hzero, hw]
  have hnm : nm = true :=
    runCommandLoop_mem_flag env style false recurse fuel u ou 0 nbu hp
      args 0 0 false body tObjs tBytes nm hu hloop
  subst hnm
  refine ⟨rfl, ?_⟩
  have hne : args.isEmpty = false := by
    cases args with
    | nil => cases hu
    | cons a l => rfl
  simp [RunCommand, hne, hloop]

/-- Witness for C3: the single wildcard argument `gs://b/x*` matches
nothing in `baseEnv`; the command completes (empty output, zero totals,
no TOTAL line) and then fails with the aggregate no-match error. -/
theorem runCommand_wildcard_nomatch_aggregate_witness :
    true = true ∧
    RunCommand baseEnv ["gs://b/x*"] ListingStyle.SHORT false false 1 =
      ([] ++ (if (0 : Nat) ≠ 0 ∧ ListingStyle.SHORT ≠ ListingStyle.SHORT
              then [totalLine baseEnv 0 0] else []),
       Except.error (CmdErr.commandException "One or more URIs matched no objects.")) :=
  runCommand_wildcard_nomatch_aggregate baseEnv ListingStyle.SHORT false 1
    ["gs://b/x*"] "gs://b/x*" [] [] 0 0 0 true (by simp) rfl rfl rfl rfl rfl

/-- Claim C7: after the argument loop completes, the command's printed
output is the loop output followed by the summary line
`TOTAL: <n> objects, <bytes> bytes (<human>)` exactly when the total
object count is nonzero and the detail level is not SHORT; in
particular a zero-total listing appends no totals line. -/
theorem runCommand_total_line_iff (env : Env) (args : List String)
    (style : ListingStyle) (gbi recurse : Bool) (fuel : Nat)
    (body : List String) (tObjs tBytes : Nat) (nm : Bool)
    (hargs : args.isEmpty = false)
    (hloop : runCommandLoop env style gbi recurse fuel args (0, 0, false) =
      (body, Except.ok (tObjs, tBytes, nm))) :
    (RunCommand env args style gbi recurse fuel).1 =
      body ++ (if tObjs ≠ 0 ∧ style ≠ ListingStyle.SHORT
               then [totalLine env tObjs tBytes] else []) := by
  simp [RunCommand, hargs, hloop]

/-- Witness for C7: listing the single five-byte object `gs://b/o` at
LONG detail prints its line and then the TOTAL line. -/
theorem runCommand_total_line_iff_witness :
    (RunCommand envOneObj ["gs://b/o"] ListingStyle.LONG false false 2).1 =
      ["         5  2012-03-02T19:25:17  gs://b/o"] ++
        (if (1 : Nat) ≠ 0 ∧ ListingStyle.LONG ≠ ListingStyle.SHORT
         then [totalLine envOneObj 1 5] else []) :=
  runCommand_total_line_iff envOneObj ["gs://b/o"] ListingStyle.LONG false false 2
    ["         5  2012-03-02T19:25:17  gs://b/o"] 1 5 false rfl rfl
